import Mathlib

/-!
Verification of `macos/create-app-icon.py`: a single-pass pipeline that
renders a diagonal three-stop gradient, composites a source image onto it
at several resolutions, stages the results as files, and packages them.

The Python script computes the gradient with IEEE double arithmetic.  All
quantities occurring in those computations (`(x + y) / (2 * size)` and the
channel interpolations, for the power-of-two sizes the pipeline uses, and
`size * 0.8` for the sizes at hand) are exactly representable, so exact
rational arithmetic over `ℚ` is a faithful model and is used throughout.
-/

/-- Tailwind color value from the source: indigo-500, `#6366f1`. -/
def INDIGO_500 : Int × Int × Int := (99, 102, 241)

/-- Tailwind color value from the source: violet-500, `#8b5cf6`. -/
def VIOLET_500 : Int × Int × Int := (139, 92, 246)

/-- Tailwind color value from the source: purple-500, `#a855f7`. -/
def PURPLE_500 : Int × Int × Int := (168, 85, 247)

/-- Icon sizes required for macOS `.icns`, from the source. -/
def ICON_SIZES : List Nat := [16, 32, 64, 128, 256, 512, 1024]

/-- Model of Python `int(...)` applied to a real number: truncation toward
zero (floor for nonnegative arguments, ceiling for negative ones). -/
def pyInt (q : ℚ) : Int := if 0 ≤ q then ⌊q⌋ else ⌈q⌉

/-- One channel of the interpolation in `create_gradient_background`:
`int(a + (b - a) * t)`. -/
def lerpChannel (a b : Int) (t : ℚ) : Int := pyInt ((a : ℚ) + ((b : ℚ) - (a : ℚ)) * t)

/-- The pixel color of `create_gradient_background` as a function of the
normalized diagonal distance alone (the body of the per-pixel loop). -/
def gradAtD (d : ℚ) : Int × Int × Int :=
  if d < 1/2 then
    let t : ℚ := d * 2
    (lerpChannel INDIGO_500.1 VIOLET_500.1 t,
     lerpChannel INDIGO_500.2.1 VIOLET_500.2.1 t,
     lerpChannel INDIGO_500.2.2 VIOLET_500.2.2 t)
  else
    let t : ℚ := (d - 1/2) * 2
    (lerpChannel VIOLET_500.1 PURPLE_500.1 t,
     lerpChannel VIOLET_500.2.1 PURPLE_500.2.1 t,
     lerpChannel VIOLET_500.2.2 PURPLE_500.2.2 t)

/-- The color written by `create_gradient_background` at pixel `(x, y)` of a
`size × size` image: `distance = (x + y) / (2 * size)`, then two-segment
linear interpolation across the three stops. -/
def gradientPixel (size x y : Nat) : Int × Int × Int :=
  gradAtD (((x : ℚ) + (y : ℚ)) / (2 * (size : ℚ)))

example : gradientPixel 4 0 0 = (99, 102, 241) := by
  norm_num [gradientPixel, gradAtD, lerpChannel, pyInt, INDIGO_500, VIOLET_500, PURPLE_500]
example : gradientPixel 16 15 15 = (164, 85, 246) := by
  norm_num [gradientPixel, gradAtD, lerpChannel, pyInt, INDIGO_500, VIOLET_500, PURPLE_500]

/-- Pixel modes occurring in the script. -/
inductive Mode
  | RGB
  | RGBA
deriving DecidableEq

/-- In-memory bitmap model: a mode, dimensions, and a pixel map giving
`(r, g, b, a)` at each coordinate.  Images in RGB mode carry `a = 255`. -/
structure Img where
  mode : Mode
  width : Nat
  height : Nat
  px : Nat → Nat → Int × Int × Int × Int

/-- Type of the resampling filter used by PIL `Image.resize` with
`Resampling.LANCZOS`: given the source image and target dimensions it yields
the resampled pixel map.  The Lanczos kernel is PIL library code, external to
this repository, so it is kept as a parameter of the embedding; none of the
verified properties depend on the resampled pixel values. -/
abbrev ResampleKernel : Type := Img → Nat → Nat → Nat → Nat → Int × Int × Int × Int

/-- PIL `img.resize((w, h), LANCZOS)`: same mode, new dimensions, pixel
content produced by the resampling filter. -/
def resizeImg (kernel : ResampleKernel) (img : Img) (w h : Nat) : Img :=
  ⟨img.mode, w, h, kernel img w h⟩

/-- PIL `convert('RGBA')` as applied by the script (always to an image whose
pixels are opaque): same color values, full alpha. -/
def convertRGBA (img : Img) : Img :=
  ⟨Mode.RGBA, img.width, img.height, fun x y =>
    ((img.px x y).1, (img.px x y).2.1, (img.px x y).2.2.1, 255)⟩

/-- PIL `convert('RGB')`: flatten away the alpha channel. -/
def convertRGB (img : Img) : Img :=
  ⟨Mode.RGB, img.width, img.height, fun x y =>
    ((img.px x y).1, (img.px x y).2.1, (img.px x y).2.2.1, 255)⟩

/-- Porter-Duff "over" on straight alpha, the documented semantics of PIL
`Image.alpha_composite`, with round-to-nearest quantization.  (PIL computes
this in fixed point; the exact rounding is irrelevant to every property
proved below.) -/
def overPx (dst src : Int × Int × Int × Int) : Int × Int × Int × Int :=
  let sa : ℚ := src.2.2.2
  let da : ℚ := dst.2.2.2
  let oa : ℚ := sa + da * (1 - sa / 255)
  if oa = 0 then (0, 0, 0, 0)
  else
    let mix : Int → Int → Int := fun s d =>
      pyInt (((s : ℚ) * sa + (d : ℚ) * da * (1 - sa / 255)) / oa + 1/2)
    (mix src.1 dst.1, mix src.2.1 dst.2.1, mix src.2.2.1 dst.2.2.1, pyInt (oa + 1/2))

/-- PIL `dst.alpha_composite(src, (ox, oy))`: blend `src` over the rectangle
of `dst` starting at `(ox, oy)`; pixels outside that rectangle are
unchanged. -/
def alphaComposite (dst src : Img) (ox oy : Nat) : Img :=
  ⟨dst.mode, dst.width, dst.height, fun x y =>
    if ox ≤ x ∧ x < ox + src.width ∧ oy ≤ y ∧ y < oy + src.height then
      overPx (dst.px x y) (src.px (x - ox) (y - oy))
    else dst.px x y⟩

/-- PIL `dst.paste(src, (ox, oy), None)`: opaque paste, replacing the pixels
of the rectangle of `dst` starting at `(ox, oy)` by those of `src`. -/
def pasteImg (dst src : Img) (ox oy : Nat) : Img :=
  ⟨dst.mode, dst.width, dst.height, fun x y =>
    if ox ≤ x ∧ x < ox + src.width ∧ oy ≤ y ∧ y < oy + src.height then
      src.px (x - ox) (y - oy)
    else dst.px x y⟩

/-- `Image.new('RGB', (size, size))` filled by the per-pixel gradient loop of
`create_gradient_background`. -/
def create_gradient_background (size : Nat) : Img :=
  ⟨Mode.RGB, size, size, fun x y =>
    ((gradientPixel size x y).1, (gradientPixel size x y).2.1,
     (gradientPixel size x y).2.2, 255)⟩

/-- Model of `int(size * 0.8)` from `create_icon_size`.  In Python the
product is computed in IEEE double arithmetic; for every natural `size` in
the range used here the truncated result equals `⌊4 * size / 5⌋`, i.e. `Nat`
division (the double product of `size` with the nearest double to `0.8` lies
within half an ulp above the exact rational `4 * size / 5`, so truncation
agrees). -/
def octo_scaled (size : Nat) : Nat := 4 * size / 5

/-- `create_icon_size(size, octo_image)`: gradient background, source scaled
to 80% of the icon size, centered, alpha-composited when the (resized)
source is RGBA, pasted opaquely otherwise, and flattened to RGB. -/
def create_icon_size (kernel : ResampleKernel) (size : Nat) (octo_image : Img) : Img :=
  let background := create_gradient_background size
  let octoSize := octo_scaled size
  let octo_resized := resizeImg kernel octo_image octoSize octoSize
  let x_offset := (size - octoSize) / 2
  let y_offset := (size - octoSize) / 2
  if octo_resized.mode = Mode.RGBA then
    convertRGB (alphaComposite (convertRGBA background) octo_resized x_offset y_offset)
  else
    pasteImg background octo_resized x_offset y_offset

/-- Staged file name `icon_(size)x(size).png`. -/
def icon_filename (size : Nat) : String :=
  "icon_" ++ toString size ++ "x" ++ toString size ++ ".png"

/-- Staged file name `icon_(size)x(size)@2x.png`. -/
def icon_filename_2x (size : Nat) : String :=
  "icon_" ++ toString size ++ "x" ++ toString size ++ "@2x.png"

/-- One iteration of the emission loop in `main`: always save the base file;
for `size ≤ 128` (and `size < 1024`, the nested check) also save the `@2x`
variant rendered at `size * 2`. -/
def emitForSize (kernel : ResampleKernel) (octo_image : Img) (size : Nat) :
    List (String × Img) :=
  let icon := create_icon_size kernel size octo_image
  if size ≤ 128 then
    (icon_filename size, icon) ::
      (if size < 1024 then
        [(icon_filename_2x size, create_icon_size kernel (size * 2) octo_image)]
      else [])
  else
    [(icon_filename size, icon)]

/-- All files written into the staging directory (`AppIcon.iconset`) by the
emission loop of `main`, in order, with their image content. -/
def staged_files (kernel : ResampleKernel) (octo_image : Img) : List (String × Img) :=
  (ICON_SIZES.map (emitForSize kernel octo_image)).flatten

/-- Outcome of `create_icns_file`, the `iconutil` subprocess wrapper.
`found = false` models `FileNotFoundError` (the utility is absent),
`ok = false` models `CalledProcessError` (non-zero exit); either one makes
the script report an error and call `sys.exit(1)`.  Returns `true` exactly
when the `.icns` container was created. -/
def create_icns_file (found ok : Bool) : Bool := found && ok

/-- Environment of one run of `main`: which failure modes the outside world
exhibits, plus the source image and the resampling filter. -/
structure Env where
  sourceExists : Bool
  loadOk : Bool
  octo : Img
  kernel : ResampleKernel
  iconutilFound : Bool
  iconutilOk : Bool

/-- Observable outcome of one run of `main`: the exit code, whether the
staging directory was created, the files written into it, whether an error
was reported, whether the `.icns` container was produced, and whether the
staging directory was removed at the end. -/
structure RunResult where
  exitCode : Nat
  stagingCreated : Bool
  staged : List (String × Img)
  errorReported : Bool
  icnsCreated : Bool
  stagingRemoved : Bool

/-- The control flow of the script's `main` (the name `main` itself is
reserved in Lean): check the source file, load it (converting to RGBA when
needed), create the staging directory, run the emission loop, package via
`create_icns_file`, and clean up the staging directory — each failure point
exiting with status 1 exactly as in the script. -/
def mainRun (env : Env) : RunResult :=
  if env.sourceExists = false then ⟨1, false, [], true, false, false⟩
  else if env.loadOk = false then ⟨1, false, [], true, false, false⟩
  else
    let octo_image := if env.octo.mode = Mode.RGBA then env.octo else convertRGBA env.octo
    let files := staged_files env.kernel octo_image
    if create_icns_file env.iconutilFound env.iconutilOk then
      ⟨0, true, files, false, true, true⟩
    else
      ⟨1, true, files, true, false, false⟩

/-- Concrete resampling filter used only to instantiate universally
quantified statements: samples the source pixel at the target coordinates. -/
def constKernel : ResampleKernel := fun img _ _ x y => img.px x y

/-- Concrete RGBA source image used only to instantiate universally
quantified statements. -/
def sampleOctoRGBA : Img := ⟨Mode.RGBA, 8, 8, fun _ _ => (10, 20, 30, 128)⟩

/-- Concrete RGB source image used only to instantiate universally
quantified statements. -/
def sampleOctoRGB : Img := ⟨Mode.RGB, 8, 8, fun _ _ => (10, 20, 30, 255)⟩

lemma pyInt_of_nonneg {q : ℚ} (h : 0 ≤ q) : pyInt q = ⌊q⌋ := if_pos h

lemma lerpChannel_eq_floor (a b : Int) {t : ℚ} (ha : 0 ≤ a) (hb : 0 ≤ b)
    (h0 : 0 ≤ t) (h1 : t ≤ 1) :
    lerpChannel a b t = ⌊(a : ℚ) + ((b : ℚ) - a) * t⌋ := by
  have key : (a : ℚ) + ((b : ℚ) - a) * t = (a : ℚ) * (1 - t) + (b : ℚ) * t := by ring
  have ha' : (0 : ℚ) ≤ a := by exact_mod_cast ha
  have hb' : (0 : ℚ) ≤ b := by exact_mod_cast hb
  have hnn : 0 ≤ (a : ℚ) + ((b : ℚ) - a) * t := by
    rw [key]
    have := mul_nonneg ha' (by linarith : (0 : ℚ) ≤ 1 - t)
    have := mul_nonneg hb' h0
    linarith
  exact pyInt_of_nonneg hnn

lemma lerpChannel_zero (a b : Int) (ha : 0 ≤ a) : lerpChannel a b 0 = a := by
  have ha' : (0 : ℚ) ≤ (a : ℚ) := by exact_mod_cast ha
  simp [lerpChannel, pyInt, ha']

lemma lerpChannel_ge {a b : Int} (hab : a ≤ b) (ha : 0 ≤ a) {t : ℚ}
    (h0 : 0 ≤ t) (h1 : t ≤ 1) : a ≤ lerpChannel a b t := by
  rw [lerpChannel_eq_floor a b ha (ha.trans hab) h0 h1]
  rw [Int.le_floor]
  have hab' : (a : ℚ) ≤ b := by exact_mod_cast hab
  nlinarith

lemma lerpChannel_le {a b : Int} (hab : a ≤ b) (ha : 0 ≤ a) {t : ℚ}
    (h0 : 0 ≤ t) (h1 : t ≤ 1) : lerpChannel a b t ≤ b := by
  rw [lerpChannel_eq_floor a b ha (ha.trans hab) h0 h1]
  have hab' : (a : ℚ) ≤ b := by exact_mod_cast hab
  have harg : (a : ℚ) + ((b : ℚ) - a) * t ≤ b := by nlinarith
  have := (Int.floor_le ((a : ℚ) + ((b : ℚ) - a) * t)).trans harg
  exact_mod_cast Int.cast_le.mp (by exact_mod_cast this)

lemma lerpChannel_lt {a b : Int} (hab : a < b) (ha : 0 ≤ a) {t : ℚ}
    (h0 : 0 ≤ t) (h1 : t < 1) : lerpChannel a b t < b := by
  rw [lerpChannel_eq_floor a b ha (ha.trans hab.le) h0 h1.le]
  rw [Int.floor_lt]
  have hab' : (a : ℚ) < b := by exact_mod_cast hab
  nlinarith

lemma lerpChannel_anti_ge {a b : Int} (hba : b ≤ a) (hb : 0 ≤ b) {t : ℚ}
    (h0 : 0 ≤ t) (h1 : t ≤ 1) : b ≤ lerpChannel a b t := by
  rw [lerpChannel_eq_floor a b (hb.trans hba) hb h0 h1]
  rw [Int.le_floor]
  have hba' : (b : ℚ) ≤ a := by exact_mod_cast hba
  nlinarith

lemma lerpChannel_anti_le {a b : Int} (hba : b ≤ a) (hb : 0 ≤ b) {t : ℚ}
    (h0 : 0 ≤ t) (h1 : t ≤ 1) : lerpChannel a b t ≤ a := by
  rw [lerpChannel_eq_floor a b (hb.trans hba) hb h0 h1]
  have hba' : (b : ℚ) ≤ a := by exact_mod_cast hba
  have harg : (a : ℚ) + ((b : ℚ) - a) * t ≤ a := by nlinarith
  have := (Int.floor_le ((a : ℚ) + ((b : ℚ) - a) * t)).trans harg
  exact_mod_cast Int.cast_le.mp (by exact_mod_cast this)

lemma lerpChannel_mono {a b : Int} (hab : a ≤ b) (ha : 0 ≤ a) {t₁ t₂ : ℚ}
    (h0 : 0 ≤ t₁) (h12 : t₁ ≤ t₂) (h21 : t₂ ≤ 1) :
    lerpChannel a b t₁ ≤ lerpChannel a b t₂ := by
  rw [lerpChannel_eq_floor a b ha (ha.trans hab) h0 (h12.trans h21),
      lerpChannel_eq_floor a b ha (ha.trans hab) (h0.trans h12) h21]
  apply Int.floor_le_floor
  have hab' : (a : ℚ) ≤ b := by exact_mod_cast hab
  nlinarith

lemma lerpChannel_anti {a b : Int} (hba : b ≤ a) (hb : 0 ≤ b) {t₁ t₂ : ℚ}
    (h0 : 0 ≤ t₁) (h12 : t₁ ≤ t₂) (h21 : t₂ ≤ 1) :
    lerpChannel a b t₂ ≤ lerpChannel a b t₁ := by
  rw [lerpChannel_eq_floor a b (hb.trans hba) hb h0 (h12.trans h21),
      lerpChannel_eq_floor a b (hb.trans hba) hb (h0.trans h12) h21]
  apply Int.floor_le_floor
  have hba' : (b : ℚ) ≤ a := by exact_mod_cast hba
  nlinarith

lemma gradAtD_eq_fst {d : ℚ} (h : d < 1/2) :
    gradAtD d = (lerpChannel 99 139 (d * 2), lerpChannel 102 92 (d * 2),
      lerpChannel 241 246 (d * 2)) := by
  unfold gradAtD
  rw [if_pos h]
  simp [INDIGO_500, VIOLET_500]

lemma gradAtD_eq_snd {d : ℚ} (h : ¬ d < 1/2) :
    gradAtD d = (lerpChannel 139 168 ((d - 1/2) * 2), lerpChannel 92 85 ((d - 1/2) * 2),
      lerpChannel 246 247 ((d - 1/2) * 2)) := by
  unfold gradAtD
  rw [if_neg h]
  simp [VIOLET_500, PURPLE_500]

lemma gradAtD_bounds {d : ℚ} (h0 : 0 ≤ d) (h1 : d < 1) :
    (99 ≤ (gradAtD d).1 ∧ (gradAtD d).1 ≤ 168) ∧
    (85 ≤ (gradAtD d).2.1 ∧ (gradAtD d).2.1 ≤ 102) ∧
    (241 ≤ (gradAtD d).2.2 ∧ (gradAtD d).2.2 ≤ 247) := by
  by_cases hd : d < 1/2
  · rw [gradAtD_eq_fst hd]
    have h2 : 0 ≤ d * 2 := by linarith
    have h3 : d * 2 ≤ 1 := by linarith
    refine ⟨⟨?_, ?_⟩, ⟨?_, ?_⟩, ?_, ?_⟩
    · exact lerpChannel_ge (by norm_num) (by norm_num) h2 h3
    · exact (lerpChannel_le (by norm_num) (by norm_num) h2 h3).trans (by norm_num)
    · exact le_trans (by norm_num) (lerpChannel_anti_ge (by norm_num) (by norm_num) h2 h3)
    · exact lerpChannel_anti_le (by norm_num) (by norm_num) h2 h3
    · exact lerpChannel_ge (by norm_num) (by norm_num) h2 h3
    · exact (lerpChannel_le (by norm_num) (by norm_num) h2 h3).trans (by norm_num)
  · rw [gradAtD_eq_snd hd]
    have h2 : 0 ≤ (d - 1/2) * 2 := by push_neg at hd; linarith
    have h3 : (d - 1/2) * 2 ≤ 1 := by linarith
    refine ⟨⟨?_, ?_⟩, ⟨?_, ?_⟩, ?_, ?_⟩
    · exact le_trans (by norm_num) (lerpChannel_ge (by norm_num) (by norm_num) h2 h3)
    · exact lerpChannel_le (by norm_num) (by norm_num) h2 h3
    · exact lerpChannel_anti_ge (by norm_num) (by norm_num) h2 h3
    · exact (lerpChannel_anti_le (by norm_num) (by norm_num) h2 h3).trans (by norm_num)
    · exact le_trans (by norm_num) (lerpChannel_ge (by norm_num) (by norm_num) h2 h3)
    · exact lerpChannel_le (by norm_num) (by norm_num) h2 h3

lemma gradAtD_r_mono {d₁ d₂ : ℚ} (h0 : 0 ≤ d₁) (h12 : d₁ ≤ d₂) (h1 : d₂ < 1) :
    (gradAtD d₁).1 ≤ (gradAtD d₂).1 := by
  by_cases hd1 : d₁ < 1/2
  · by_cases hd2 : d₂ < 1/2
    · rw [gradAtD_eq_fst hd1, gradAtD_eq_fst hd2]
      exact lerpChannel_mono (by norm_num) (by norm_num) (by linarith) (by linarith)
        (by linarith)
    · rw [gradAtD_eq_fst hd1, gradAtD_eq_snd hd2]
      have hl : lerpChannel 99 139 (d₁ * 2) < 139 :=
        lerpChannel_lt (by norm_num) (by norm_num) (by linarith) (by linarith)
      have hr : (139 : Int) ≤ lerpChannel 139 168 ((d₂ - 1/2) * 2) := by
        push_neg at hd2
        exact lerpChannel_ge (by norm_num) (by norm_num) (by linarith) (by linarith)
      exact le_trans hl.le hr
  · have hd2 : ¬ d₂ < 1/2 := by push_neg at hd1 ⊢; linarith
    rw [gradAtD_eq_snd hd1, gradAtD_eq_snd hd2]
    push_neg at hd1
    exact lerpChannel_mono (by norm_num) (by norm_num) (by linarith) (by linarith)
      (by linarith)

lemma gradAtD_g_anti {d₁ d₂ : ℚ} (h0 : 0 ≤ d₁) (h12 : d₁ ≤ d₂) (h1 : d₂ < 1) :
    (gradAtD d₂).2.1 ≤ (gradAtD d₁).2.1 := by
  by_cases hd1 : d₁ < 1/2
  · by_cases hd2 : d₂ < 1/2
    · rw [gradAtD_eq_fst hd1, gradAtD_eq_fst hd2]
      exact lerpChannel_anti (by norm_num) (by norm_num) (by linarith) (by linarith)
        (by linarith)
    · rw [gradAtD_eq_fst hd1, gradAtD_eq_snd hd2]
      have hl : (92 : Int) ≤ lerpChannel 102 92 (d₁ * 2) :=
        lerpChannel_anti_ge (by norm_num) (by norm_num) (by linarith) (by linarith)
      have hr : lerpChannel 92 85 ((d₂ - 1/2) * 2) ≤ 92 := by
        push_neg at hd2
        exact lerpChannel_anti_le (by norm_num) (by norm_num) (by linarith) (by linarith)
      exact le_trans hr hl
  · have hd2 : ¬ d₂ < 1/2 := by push_neg at hd1 ⊢; linarith
    rw [gradAtD_eq_snd hd1, gradAtD_eq_snd hd2]
    push_neg at hd1
    exact lerpChannel_anti (by norm_num) (by norm_num) (by linarith) (by linarith)
      (by linarith)

lemma gradAtD_b_mono {d₁ d₂ : ℚ} (h0 : 0 ≤ d₁) (h12 : d₁ ≤ d₂) (h1 : d₂ < 1) :
    (gradAtD d₁).2.2 ≤ (gradAtD d₂).2.2 := by
  by_cases hd1 : d₁ < 1/2
  · by_cases hd2 : d₂ < 1/2
    · rw [gradAtD_eq_fst hd1, gradAtD_eq_fst hd2]
      exact lerpChannel_mono (by norm_num) (by norm_num) (by linarith) (by linarith)
        (by linarith)
    · rw [gradAtD_eq_fst hd1, gradAtD_eq_snd hd2]
      have hl : lerpChannel 241 246 (d₁ * 2) < 246 :=
        lerpChannel_lt (by norm_num) (by norm_num) (by linarith) (by linarith)
      have hr : (246 : Int) ≤ lerpChannel 246 247 ((d₂ - 1/2) * 2) := by
        push_neg at hd2
        exact lerpChannel_ge (by norm_num) (by norm_num) (by linarith) (by linarith)
      exact le_trans hl.le hr
  · have hd2 : ¬ d₂ < 1/2 := by push_neg at hd1 ⊢; linarith
    rw [gradAtD_eq_snd hd1, gradAtD_eq_snd hd2]
    push_neg at hd1
    exact lerpChannel_mono (by norm_num) (by norm_num) (by linarith) (by linarith)
      (by linarith)

lemma dist_nonneg_lt_one {size x y : Nat} (hs : 0 < size) (hx : x < size)
    (hy : y < size) :
    0 ≤ ((x : ℚ) + y) / (2 * size) ∧ ((x : ℚ) + y) / (2 * size) < 1 := by
  have hs' : (0 : ℚ) < size := by exact_mod_cast hs
  constructor
  · positivity
  · rw [div_lt_one (by positivity)]
    have hx' : (x : ℚ) < size := by exact_mod_cast hx
    have hy' : (y : ℚ) < size := by exact_mod_cast hy
    linarith

lemma gradient_corner_eq {size : Nat} (hs : 58 ≤ size) :
    gradientPixel size (size - 1) (size - 1) = (167, 85, 246) := by
  have h1 : 1 ≤ size := by omega
  have hsq : (58 : ℚ) ≤ (size : ℚ) := by exact_mod_cast hs
  have hspos : (0 : ℚ) < (size : ℚ) := by linarith
  have hcast : ((size - 1 : Nat) : ℚ) = (size : ℚ) - 1 := by
    simpa using Nat.cast_sub h1
  unfold gradientPixel
  rw [hcast]
  have hnot : ¬ (((size : ℚ) - 1 + ((size : ℚ) - 1)) / (2 * size) < 1/2) := by
    rw [not_lt, le_div_iff₀ (by positivity)]
    linarith
  rw [gradAtD_eq_snd hnot]
  have ht : (((size : ℚ) - 1 + ((size : ℚ) - 1)) / (2 * size) - 1/2) * 2 =
      ((size : ℚ) - 2) / size := by
    field_simp
    ring
  rw [ht]
  have ht0 : 0 ≤ ((size : ℚ) - 2) / size := by
    apply div_nonneg (by linarith) (by linarith)
  have ht1 : ((size : ℚ) - 2) / size ≤ 1 := by
    rw [div_le_one hspos]
    linarith
  have hr : lerpChannel 139 168 (((size : ℚ) - 2) / size) = 167 := by
    rw [lerpChannel_eq_floor _ _ (by norm_num) (by norm_num) ht0 ht1]
    have key : ((139 : Int) : ℚ) + (((168 : Int) : ℚ) - ((139 : Int) : ℚ)) *
        (((size : ℚ) - 2) / size) = 168 - 58 / size := by
      push_cast
      field_simp
      ring
    rw [key, Int.floor_eq_iff]
    constructor
    · push_cast
      have : 58 / (size : ℚ) ≤ 1 := by
        rw [div_le_one hspos]; linarith
      linarith
    · push_cast
      have : 0 < 58 / (size : ℚ) := by positivity
      linarith
  have hg : lerpChannel 92 85 (((size : ℚ) - 2) / size) = 85 := by
    rw [lerpChannel_eq_floor _ _ (by norm_num) (by norm_num) ht0 ht1]
    have key : ((92 : Int) : ℚ) + (((85 : Int) : ℚ) - ((92 : Int) : ℚ)) *
        (((size : ℚ) - 2) / size) = 85 + 14 / size := by
      push_cast
      field_simp
      ring
    rw [key, Int.floor_eq_iff]
    constructor
    · push_cast
      have : 0 ≤ 14 / (size : ℚ) := by positivity
      linarith
    · push_cast
      have : 14 / (size : ℚ) < 1 := by
        rw [div_lt_one hspos]; linarith
      linarith
  have hb : lerpChannel 246 247 (((size : ℚ) - 2) / size) = 246 := by
    rw [lerpChannel_eq_floor _ _ (by norm_num) (by norm_num) ht0 ht1]
    have key : ((246 : Int) : ℚ) + (((247 : Int) : ℚ) - ((246 : Int) : ℚ)) *
        (((size : ℚ) - 2) / size) = 247 - 2 / size := by
      push_cast
      field_simp
      ring
    rw [key, Int.floor_eq_iff]
    constructor
    · push_cast
      have : 2 / (size : ℚ) ≤ 1 := by
        rw [div_le_one hspos]; linarith
      linarith
    · push_cast
      have : 0 < 2 / (size : ℚ) := by positivity
      linarith
  rw [hr, hg, hb]

/-- C7: for every `size > 0`, `create_gradient_background` returns a bitmap
exactly `size` pixels wide and `size` pixels tall, and every pixel's color is
`gradientPixel size x y` — a function solely of the coordinates, the size,
and the three fixed color constants. -/
theorem c7_gradient_dims_and_purity (size : Nat) (_hs : 0 < size) :
    (create_gradient_background size).width = size ∧
    (create_gradient_background size).height = size ∧
    ∀ x y : Nat, (create_gradient_background size).px x y =
      ((gradientPixel size x y).1, (gradientPixel size x y).2.1,
       (gradientPixel size x y).2.2, 255) :=
  ⟨rfl, rfl, fun _ _ => rfl⟩

theorem c7_gradient_dims_witness :
    (create_gradient_background 3).width = 3 ∧
    (create_gradient_background 3).height = 3 ∧
    ∀ x y : Nat, (create_gradient_background 3).px x y =
      ((gradientPixel 3 x y).1, (gradientPixel 3 x y).2.1,
       (gradientPixel 3 x y).2.2, 255) :=
  c7_gradient_dims_and_purity 3 (by norm_num)

/-- C3: for every `size > 0` and pixel `(x, y)` with `x, y < size`, the
normalized diagonal distance `d = (x + y) / (2 * size)` lies in `[0, 1)`;
when `d < 0.5` each channel equals `A + (B - A) * (d * 2)` truncated to an
integer, and when `d ≥ 0.5` each channel equals `B + (C - B) * ((d - 0.5) * 2)`
truncated, with stops `A = (99, 102, 241)`, `B = (139, 92, 246)`,
`C = (168, 85, 247)`. -/
theorem c3_gradient_formula (size x y : Nat) (hs : 0 < size) (hx : x < size)
    (hy : y < size) :
    0 ≤ ((x : ℚ) + y) / (2 * size) ∧ ((x : ℚ) + y) / (2 * size) < 1 ∧
    (((x : ℚ) + y) / (2 * size) < 1/2 →
      gradientPixel size x y =
        (pyInt (99 + (139 - 99) * (((x : ℚ) + y) / (2 * size) * 2)),
         pyInt (102 + (92 - 102) * (((x : ℚ) + y) / (2 * size) * 2)),
         pyInt (241 + (246 - 241) * (((x : ℚ) + y) / (2 * size) * 2)))) ∧
    (1/2 ≤ ((x : ℚ) + y) / (2 * size) →
      gradientPixel size x y =
        (pyInt (139 + (168 - 139) * ((((x : ℚ) + y) / (2 * size) - 1/2) * 2)),
         pyInt (92 + (85 - 92) * ((((x : ℚ) + y) / (2 * size) - 1/2) * 2)),
         pyInt (246 + (247 - 246) * ((((x : ℚ) + y) / (2 * size) - 1/2) * 2)))) := by
  obtain ⟨hd0, hd1⟩ := dist_nonneg_lt_one hs hx hy
  refine ⟨hd0, hd1, ?_, ?_⟩
  · intro h
    unfold gradientPixel
    rw [gradAtD_eq_fst h]
    simp only [lerpChannel]
    norm_num
  · intro h
    unfold gradientPixel
    rw [gradAtD_eq_snd (not_lt.mpr h)]
    simp only [lerpChannel]
    norm_num

theorem c3_gradient_formula_witness :
    gradientPixel 4 1 2 =
      (pyInt (99 + (139 - 99) * ((((1 : Nat) : ℚ) + ((2 : Nat) : ℚ)) / (2 * ((4 : Nat) : ℚ)) * 2)),
       pyInt (102 + (92 - 102) * ((((1 : Nat) : ℚ) + ((2 : Nat) : ℚ)) / (2 * ((4 : Nat) : ℚ)) * 2)),
       pyInt (241 + (246 - 241) * ((((1 : Nat) : ℚ) + ((2 : Nat) : ℚ)) / (2 * ((4 : Nat) : ℚ)) * 2))) :=
  (c3_gradient_formula 4 1 2 (by norm_num) (by norm_num) (by norm_num)).2.2.1
    (by norm_num)

/-- C2 (corrected): for every `size > 0` the pixel at `(0, 0)` equals stop A
`(99, 102, 241)` exactly; the pixel at `(size - 1, size - 1)` is within ±1 per
channel of stop C `(168, 85, 247)` once `size ≥ 58` — for smaller sizes the
truncated interpolation undershoots stop C by more than 1 in the red
channel, because the last diagonal only reaches `t = (size - 2) / size`. -/
theorem c2_gradient_endpoints (size : Nat) (_hs : 0 < size) :
    gradientPixel size 0 0 = (99, 102, 241) ∧
    (58 ≤ size →
      |(gradientPixel size (size - 1) (size - 1)).1 - 168| ≤ 1 ∧
      |(gradientPixel size (size - 1) (size - 1)).2.1 - 85| ≤ 1 ∧
      |(gradientPixel size (size - 1) (size - 1)).2.2 - 247| ≤ 1) := by
  constructor
  · unfold gradientPixel
    have hd : (((0 : Nat) : ℚ) + ((0 : Nat) : ℚ)) / (2 * (size : ℚ)) = 0 := by
      norm_num
    rw [hd, gradAtD_eq_fst (by norm_num)]
    norm_num [lerpChannel, pyInt]
  · intro h58
    rw [gradient_corner_eq h58]
    norm_num

theorem c2_gradient_endpoints_witness :
    gradientPixel 64 0 0 = (99, 102, 241) ∧
    (|(gradientPixel 64 63 63).1 - 168| ≤ 1 ∧
     |(gradientPixel 64 63 63).2.1 - 85| ≤ 1 ∧
     |(gradientPixel 64 63 63).2.2 - 247| ≤ 1) :=
  ⟨(c2_gradient_endpoints 64 (by norm_num)).1,
   (c2_gradient_endpoints 64 (by norm_num)).2 (by norm_num)⟩

/-- C2 as stated is false: at `size = 16` (a size the pipeline actually
renders) the corner pixel `(15, 15)` has red channel 164, which differs from
stop C's red channel 168 by 4, outside the claimed ±1 tolerance. -/
theorem c2_counterexample :
    ¬ (|(gradientPixel 16 15 15).1 - 168| ≤ 1) := by
  have h : gradientPixel 16 15 15 = (164, 85, 246) := by
    norm_num [gradientPixel, gradAtD, lerpChannel, pyInt, INDIGO_500, VIOLET_500,
      PURPLE_500]
  rw [h]
  norm_num

/-- C4: as the diagonal distance `x + y` grows, the red and blue channels are
non-decreasing and the green channel is non-increasing (matching the stop
directions 99→139→168, 102→92→85, 241→246→247), and every emitted channel
value stays inside the closed range spanned by that channel's stops. -/
theorem c4_gradient_monotone_and_range (size x₁ y₁ x₂ y₂ : Nat) (hs : 0 < size)
    (hx₁ : x₁ < size) (hy₁ : y₁ < size) (hx₂ : x₂ < size) (hy₂ : y₂ < size)
    (hsum : x₁ + y₁ ≤ x₂ + y₂) :
    ((gradientPixel size x₁ y₁).1 ≤ (gradientPixel size x₂ y₂).1 ∧
     (gradientPixel size x₂ y₂).2.1 ≤ (gradientPixel size x₁ y₁).2.1 ∧
     (gradientPixel size x₁ y₁).2.2 ≤ (gradientPixel size x₂ y₂).2.2) ∧
    (99 ≤ (gradientPixel size x₁ y₁).1 ∧ (gradientPixel size x₁ y₁).1 ≤ 168 ∧
     85 ≤ (gradientPixel size x₁ y₁).2.1 ∧ (gradientPixel size x₁ y₁).2.1 ≤ 102 ∧
     241 ≤ (gradientPixel size x₁ y₁).2.2 ∧ (gradientPixel size x₁ y₁).2.2 ≤ 247) := by
  obtain ⟨h01, h11⟩ := dist_nonneg_lt_one hs hx₁ hy₁
  obtain ⟨h02, h12'⟩ := dist_nonneg_lt_one hs hx₂ hy₂
  have h12 : ((x₁ : ℚ) + y₁) / (2 * size) ≤ ((x₂ : ℚ) + y₂) / (2 * size) := by
    have hnum : ((x₁ : ℚ) + y₁) ≤ ((x₂ : ℚ) + y₂) := by exact_mod_cast hsum
    have hden : (0 : ℚ) < 2 * size := by
      have : (0 : ℚ) < size := by exact_mod_cast hs
      linarith
    exact (div_le_div_iff_of_pos_right hden).mpr hnum
  unfold gradientPixel
  obtain ⟨⟨b1, b2⟩, ⟨b3, b4⟩, b5, b6⟩ := gradAtD_bounds h01 h11
  exact ⟨⟨gradAtD_r_mono h01 h12 h12', gradAtD_g_anti h01 h12 h12',
    gradAtD_b_mono h01 h12 h12'⟩, b1, b2, b3, b4, b5, b6⟩

theorem c4_gradient_monotone_witness :
    ((gradientPixel 4 0 0).1 ≤ (gradientPixel 4 1 2).1 ∧
     (gradientPixel 4 1 2).2.1 ≤ (gradientPixel 4 0 0).2.1 ∧
     (gradientPixel 4 0 0).2.2 ≤ (gradientPixel 4 1 2).2.2) ∧
    (99 ≤ (gradientPixel 4 0 0).1 ∧ (gradientPixel 4 0 0).1 ≤ 168 ∧
     85 ≤ (gradientPixel 4 0 0).2.1 ∧ (gradientPixel 4 0 0).2.1 ≤ 102 ∧
     241 ≤ (gradientPixel 4 0 0).2.2 ∧ (gradientPixel 4 0 0).2.2 ≤ 247) :=
  c4_gradient_monotone_and_range 4 0 0 1 2 (by norm_num) (by norm_num) (by norm_num)
    (by norm_num) (by norm_num) (by norm_num)

/-- C5: for every requested `size > 0` and loaded source, the Compositor's
output bitmap is exactly `size × size`; the scaled copy of the source is
exactly `⌊size * 0.8⌋` pixels per side and sits at offset
`(size - ⌊size * 0.8⌋) / 2` from the top-left on both axes: every pixel
outside that square is the untouched gradient background, and every pixel
inside it is derived from the scaled source sampled at the box-relative
coordinates (blended over the background or pasted). -/
theorem c5_compositor_geometry (kernel : ResampleKernel) (size : Nat) (octo : Img)
    (_hs : 0 < size) :
    (create_icon_size kernel size octo).width = size ∧
    (create_icon_size kernel size octo).height = size ∧
    ((octo_scaled size : Int) = ⌊(size : ℚ) * (4/5)⌋) ∧
    (∀ x y : Nat,
      ¬ ((size - octo_scaled size) / 2 ≤ x ∧
         x < (size - octo_scaled size) / 2 + octo_scaled size ∧
         (size - octo_scaled size) / 2 ≤ y ∧
         y < (size - octo_scaled size) / 2 + octo_scaled size) →
      (create_icon_size kernel size octo).px x y =
        (create_gradient_background size).px x y) ∧
    (∀ x y : Nat,
      ((size - octo_scaled size) / 2 ≤ x ∧
       x < (size - octo_scaled size) / 2 + octo_scaled size ∧
       (size - octo_scaled size) / 2 ≤ y ∧
       y < (size - octo_scaled size) / 2 + octo_scaled size) →
      (create_icon_size kernel size octo).px x y =
        (if octo.mode = Mode.RGBA then
          ((overPx ((create_gradient_background size).px x y)
              (kernel octo (octo_scaled size) (octo_scaled size)
                (x - (size - octo_scaled size) / 2) (y - (size - octo_scaled size) / 2))).1,
           (overPx ((create_gradient_background size).px x y)
              (kernel octo (octo_scaled size) (octo_scaled size)
                (x - (size - octo_scaled size) / 2) (y - (size - octo_scaled size) / 2))).2.1,
           (overPx ((create_gradient_background size).px x y)
              (kernel octo (octo_scaled size) (octo_scaled size)
                (x - (size - octo_scaled size) / 2) (y - (size - octo_scaled size) / 2))).2.2.1,
           255)
        else
          kernel octo (octo_scaled size) (octo_scaled size)
            (x - (size - octo_scaled size) / 2) (y - (size - octo_scaled size) / 2))) := by
  have hbg : ∀ x y : Nat, (convertRGBA (create_gradient_background size)).px x y =
      (create_gradient_background size).px x y := fun _ _ => rfl
  have hfloor : ((octo_scaled size : Nat) : Int) = ⌊(size : ℚ) * (4/5)⌋ := by
    have hq : (size : ℚ) * (4/5) = ((4 * size : Nat) : ℚ) / 5 := by push_cast; ring
    rw [hq, eq_comm, Int.floor_eq_iff]
    have hle : (4 * size / 5) * 5 ≤ 4 * size := by omega
    have hlt : 4 * size < (4 * size / 5 + 1) * 5 := by omega
    constructor
    · rw [le_div_iff₀ (by norm_num)]
      unfold octo_scaled
      exact_mod_cast hle
    · rw [div_lt_iff₀ (by norm_num)]
      unfold octo_scaled
      push_cast
      exact_mod_cast hlt
  by_cases hm : octo.mode = Mode.RGBA
  · refine ⟨?_, ?_, hfloor, ?_, ?_⟩
    · simp [create_icon_size, resizeImg, hm, convertRGB, alphaComposite, convertRGBA,
        create_gradient_background]
    · simp [create_icon_size, resizeImg, hm, convertRGB, alphaComposite, convertRGBA,
        create_gradient_background]
    · intro x y hout
      simp only [create_icon_size, resizeImg, hm, if_true, reduceIte]
      simp only [convertRGB, alphaComposite, resizeImg]
      rw [if_neg hout]
      rfl
    · intro x y hin
      simp only [create_icon_size, resizeImg, hm, if_true, reduceIte]
      simp only [convertRGB, alphaComposite, resizeImg]
      rw [if_pos hin]
      rfl
  · refine ⟨?_, ?_, hfloor, ?_, ?_⟩
    · simp [create_icon_size, resizeImg, hm, pasteImg, create_gradient_background]
    · simp [create_icon_size, resizeImg, hm, pasteImg, create_gradient_background]
    · intro x y hout
      simp only [create_icon_size, resizeImg, hm, if_false, reduceIte]
      simp only [pasteImg, resizeImg]
      rw [if_neg hout]
    · intro x y hin
      simp only [create_icon_size, resizeImg, hm, if_false, reduceIte]
      simp only [pasteImg, resizeImg]
      rw [if_pos hin]

theorem c5_compositor_geometry_witness :
    (create_icon_size constKernel 10 sampleOctoRGBA).width = 10 ∧
    (create_icon_size constKernel 10 sampleOctoRGBA).height = 10 ∧
    ((octo_scaled 10 : Int) = ⌊(10 : ℚ) * (4/5)⌋) :=
  ⟨(c5_compositor_geometry constKernel 10 sampleOctoRGBA (by norm_num)).1,
   (c5_compositor_geometry constKernel 10 sampleOctoRGBA (by norm_num)).2.1,
   (c5_compositor_geometry constKernel 10 sampleOctoRGBA (by norm_num)).2.2.1⟩

/-- C6: for every size and source image, the Compositor returns a bitmap in
RGB mode (the output alpha channel is flattened away); when the source
carries transparency (RGBA mode, preserved by resizing) the scaled source is
alpha-composited onto the gradient background and the result converted to
RGB, otherwise it is pasted opaquely onto the RGB background. -/
theorem c6_compositor_flatten (kernel : ResampleKernel) (size : Nat) (octo : Img) :
    (create_icon_size kernel size octo).mode = Mode.RGB ∧
    (octo.mode = Mode.RGBA →
      create_icon_size kernel size octo =
        convertRGB (alphaComposite (convertRGBA (create_gradient_background size))
          (resizeImg kernel octo (octo_scaled size) (octo_scaled size))
          ((size - octo_scaled size) / 2) ((size - octo_scaled size) / 2))) ∧
    (octo.mode ≠ Mode.RGBA →
      create_icon_size kernel size octo =
        pasteImg (create_gradient_background size)
          (resizeImg kernel octo (octo_scaled size) (octo_scaled size))
          ((size - octo_scaled size) / 2) ((size - octo_scaled size) / 2)) := by
  by_cases hm : octo.mode = Mode.RGBA
  · refine ⟨?_, fun _ => ?_, fun hn => absurd hm hn⟩
    · simp [create_icon_size, resizeImg, hm, convertRGB]
    · simp [create_icon_size, resizeImg, hm]
  · refine ⟨?_, fun hy => absurd hy hm, fun _ => ?_⟩
    · simp [create_icon_size, resizeImg, hm, pasteImg, create_gradient_background]
    · simp [create_icon_size, resizeImg, hm]

theorem c6_compositor_flatten_witness :
    ((create_icon_size constKernel 10 sampleOctoRGBA).mode = Mode.RGB ∧
     create_icon_size constKernel 10 sampleOctoRGBA =
       convertRGB (alphaComposite (convertRGBA (create_gradient_background 10))
         (resizeImg constKernel sampleOctoRGBA (octo_scaled 10) (octo_scaled 10))
         ((10 - octo_scaled 10) / 2) ((10 - octo_scaled 10) / 2))) ∧
    ((create_icon_size constKernel 10 sampleOctoRGB).mode = Mode.RGB ∧
     create_icon_size constKernel 10 sampleOctoRGB =
       pasteImg (create_gradient_background 10)
         (resizeImg constKernel sampleOctoRGB (octo_scaled 10) (octo_scaled 10))
         ((10 - octo_scaled 10) / 2) ((10 - octo_scaled 10) / 2)) :=
  ⟨⟨(c6_compositor_flatten constKernel 10 sampleOctoRGBA).1,
    (c6_compositor_flatten constKernel 10 sampleOctoRGBA).2.1 rfl⟩,
   ⟨(c6_compositor_flatten constKernel 10 sampleOctoRGB).1,
    (c6_compositor_flatten constKernel 10 sampleOctoRGB).2.2 (by simp [sampleOctoRGB])⟩⟩

/-- Concrete environment in which the source image file is missing. -/
def sampleEnvMissing : Env := ⟨false, true, sampleOctoRGBA, constKernel, true, true⟩

/-- Concrete environment in which `iconutil` is absent. -/
def sampleEnvNoUtil : Env := ⟨true, true, sampleOctoRGBA, constKernel, false, true⟩

/-- C1 (corrected): running the emission loop over the fixed required size
set `{16, 32, 64, 128, 256, 512, 1024}` writes exactly 11 files into the
staging directory before packaging: one base `icon_(s)x(s).png` for each of
the 7 sizes, plus an `@2x` variant for the 4 sizes `≤ 128` only — the
`size < 1024` test is nested inside the `size ≤ 128` branch, so sizes 256
and 512 get no `@2x` variant. -/
theorem c1_staged_file_count (kernel : ResampleKernel) (octo : Img) :
    (staged_files kernel octo).length = 11 ∧
    (staged_files kernel octo).map Prod.fst =
      [icon_filename 16, icon_filename_2x 16, icon_filename 32, icon_filename_2x 32,
       icon_filename 64, icon_filename_2x 64, icon_filename 128, icon_filename_2x 128,
       icon_filename 256, icon_filename 512, icon_filename 1024] :=
  ⟨rfl, rfl⟩

/-- C1 as stated is false: at a concrete source image and resampling filter
the emission loop stages 11 files, not the claimed 13. -/
theorem c1_counterexample :
    ¬ ((staged_files constKernel sampleOctoRGBA).length = 13) := by
  intro hc
  have h : (staged_files constKernel sampleOctoRGBA).length = 11 := rfl
  rw [h] at hc
  norm_num at hc

/-- C10: for each base size s ∈ {16, 32, 64, 128}, the staged `@2x` variant
`icon_(s)x(s)@2x.png` has image content identical to the staged base file
`icon_(2s)x(2s).png`: both are the output of the same Compositor call at
size `2s`. -/
theorem c10_retina_equals_double (kernel : ResampleKernel) (octo : Img) :
    ((staged_files kernel octo).lookup (icon_filename_2x 16) =
        some (create_icon_size kernel 32 octo) ∧
     (staged_files kernel octo).lookup (icon_filename 32) =
        some (create_icon_size kernel 32 octo)) ∧
    ((staged_files kernel octo).lookup (icon_filename_2x 32) =
        some (create_icon_size kernel 64 octo) ∧
     (staged_files kernel octo).lookup (icon_filename 64) =
        some (create_icon_size kernel 64 octo)) ∧
    ((staged_files kernel octo).lookup (icon_filename_2x 64) =
        some (create_icon_size kernel 128 octo) ∧
     (staged_files kernel octo).lookup (icon_filename 128) =
        some (create_icon_size kernel 128 octo)) ∧
    ((staged_files kernel octo).lookup (icon_filename_2x 128) =
        some (create_icon_size kernel 256 octo) ∧
     (staged_files kernel octo).lookup (icon_filename 256) =
        some (create_icon_size kernel 256 octo)) :=
  ⟨⟨rfl, rfl⟩, ⟨rfl, rfl⟩, ⟨rfl, rfl⟩, rfl, rfl⟩

/-- C8: when the source image file is missing, the run exits with status 1
before creating the staging directory, and no file is written into it. -/
theorem c8_missing_source (env : Env) (h : env.sourceExists = false) :
    (mainRun env).exitCode = 1 ∧ (mainRun env).stagingCreated = false ∧
    (mainRun env).staged = [] := by
  simp [mainRun, h]

theorem c8_missing_source_witness :
    (mainRun sampleEnvMissing).exitCode = 1 ∧
    (mainRun sampleEnvMissing).stagingCreated = false ∧
    (mainRun sampleEnvMissing).staged = [] :=
  c8_missing_source sampleEnvMissing rfl

/-- C9: in a run that reaches packaging, if the packaging utility is absent
or exits non-zero the script reports the error and exits with status 1 while
the staging directory (already created and populated) is left in place; and
the staging directory is removed if and only if packaging succeeds. -/
theorem c9_packaging_failure (env : Env) (hsrc : env.sourceExists = true)
    (hload : env.loadOk = true) :
    ((env.iconutilFound = false ∨ env.iconutilOk = false) →
      (mainRun env).exitCode = 1 ∧ (mainRun env).errorReported = true ∧
      (mainRun env).stagingCreated = true ∧ (mainRun env).stagingRemoved = false) ∧
    ((mainRun env).stagingRemoved = true ↔
      create_icns_file env.iconutilFound env.iconutilOk = true) ∧
    ((mainRun env).icnsCreated = true ↔
      create_icns_file env.iconutilFound env.iconutilOk = true) := by
  cases hf : env.iconutilFound <;> cases ho : env.iconutilOk <;>
    simp [mainRun, hsrc, hload, create_icns_file, hf, ho]

theorem c9_packaging_failure_witness :
    ((mainRun sampleEnvNoUtil).exitCode = 1 ∧
     (mainRun sampleEnvNoUtil).errorReported = true ∧
     (mainRun sampleEnvNoUtil).stagingCreated = true ∧
     (mainRun sampleEnvNoUtil).stagingRemoved = false) ∧
    ((mainRun sampleEnvNoUtil).stagingRemoved = true ↔
      create_icns_file sampleEnvNoUtil.iconutilFound sampleEnvNoUtil.iconutilOk = true) :=
  ⟨(c9_packaging_failure sampleEnvNoUtil rfl rfl).1 (Or.inl rfl),
   (c9_packaging_failure sampleEnvNoUtil rfl rfl).2.1⟩
